import Mathlib

/-!
Verification development for the ME.ai orchestrator / RAG repository.

The Python sources are shallowly embedded: strings are modelled as lists of
Unicode code points (`List Nat`, ASCII fragment for case operations), Python
dicts as association lists, fallible Python code as `Except PyErr`, and the
ambient clock / random ids as an explicit `Env` record.  LLM, HTTP-DB and
logging collaborators are modelled as oracle functions in a `Collab` record
whose results range over `Except PyErr _`, so that a raised exception at any
collaborator call site is a possible behaviour of the model.

Floating point note: the classifier in `existing/response_generator.py`
weights the password keyword count by `1.2` (a Python float) and compares the
result with the integer hardware/software counts.  Keyword counts are bounded
by the keyword-list lengths (at most 36), and for every natural `p ≤ 36` the
double `fl(1.2 * p)` compares with every integer exactly as the rational
`6 * p / 5` does (for `p` a multiple of 5 the product rounds to the exact
integer `6 * p / 5`; otherwise `6 * p / 5` is at least `1/5` away from every
integer, far above the rounding error).  The comparisons are therefore
embedded exactly as the integer comparisons `6 * p > 5 * h` etc.
-/

/-- Code points of a Lean string: the embedding of a Python `str`. -/
def cps (s : String) : List Nat := s.data.map Char.toNat

/-- Python `str.lower` on one code point, ASCII fragment (A–Z ↦ a–z). -/
def lowerCp (n : Nat) : Nat := if 65 ≤ n ∧ n ≤ 90 then n + 32 else n

/-- `lowerCp` mapped over a string: the ASCII fragment of `str.lower`,
used by the ASCII-input lemmas below. -/
def lowerL (l : List Nat) : List Nat := l.map lowerCp

/-- Python `str.lower` on one code point.  Unicode lowercasing is
one-to-many: U+0130 (İ) lowers to the TWO code points "i"+U+0307, and
U+212A (the Kelvin sign) lowers to ASCII "k"; on the ASCII range it is
exactly `lowerCp`.  Other non-ASCII code points are modelled as
case-fixed — the embedding is exact on ASCII text and on the two special
mappings above, which are the ones the theorems below exercise. -/
def pyLowerOne (n : Nat) : List Nat :=
  if n = 304 then [105, 775]
  else if n = 8490 then [107]
  else [lowerCp n]

/-- Python `str.lower` on a whole string (may change the length). -/
def pyLower (l : List Nat) : List Nat := l.flatMap pyLowerOne

/-- Python `str.strip` whitespace test (ASCII whitespace). -/
def isSpaceCp (n : Nat) : Bool :=
  n == 32 || n == 9 || n == 10 || n == 13 || n == 11 || n == 12

/-- Python `str.strip`: drop whitespace at both ends. -/
def stripL (l : List Nat) : List Nat :=
  ((l.dropWhile isSpaceCp).reverse.dropWhile isSpaceCp).reverse

/-- `isPrefCp n h`: the list `n` is a prefix of `h` (Bool-valued). -/
def isPrefCp : List Nat → List Nat → Bool
  | [], _ => true
  | _ :: _, [] => false
  | a :: as, b :: bs => a == b && isPrefCp as bs

/-- Python `needle in hay` substring test on code-point lists. -/
def isSubCp (n : List Nat) : List Nat → Bool
  | [] => n.isEmpty
  | b :: bs => isPrefCp n (b :: bs) || isSubCp n bs

/-- Python `needle in hay` on Lean strings (case-sensitive, as in `"Hardware" in response`). -/
def pyInS (needle hay : String) : Bool := isSubCp (cps needle) (cps hay)

/-!  ## Keyword classifier — `existing/response_generator.py`, `classify_issue`  -/

/-- Hardware keyword list of `classify_issue` (source order). -/
def hardware_keywords : List String :=
  ["device", "computer", "laptop", "desktop", "slow", "broken",
   "screen", "keyboard", "mouse", "printer", "hardware", "wifi",
   "network", "internet", "connection", "battery", "power", "crash",
   "frozen", "blue screen", "bsod", "restart", "boot", "monitor",
   "display", "black screen", "webcam", "camera", "microphone", "audio",
   "sound", "speaker", "usb", "drive", "disk", "storage"]

/-- Password keyword list of `classify_issue` (source order). -/
def password_keywords : List String :=
  ["password", "login", "forgot", "reset", "locked", "account",
   "access", "credentials", "can't log in", "authentication",
   "username", "locked out", "security", "signin", "sign in",
   "log in", "cannot access", "password expired", "change password",
   "identity", "verification", "two-factor", "2fa", "mfa"]

/-- Software keyword list of `classify_issue` (source order). -/
def software_keywords : List String :=
  ["software", "application", "app", "program", "install",
   "update", "upgrade", "microsoft", "office", "excel", "word",
   "outlook", "email", "browser", "chrome", "edge", "firefox",
   "safari", "teams", "slack", "zoom", "license", "activation",
   "windows", "macos", "os", "operating system", "error message"]

/-- Greeting phrases of the `classify_issue` guard (exact-match set). -/
def guard_greetings : List String :=
  ["hi", "hello", "hey", "hi there", "hello there", "greetings"]

/-- `for word in kws: if word.lower() in message_lower: count += 1` -/
def countKw (kws : List String) (msgLower : List Nat) : Nat :=
  (kws.filter (fun k => isSubCp (pyLower (cps k)) msgLower)).length

/-- Hardware keyword count of a message (computed on the lowered message). -/
def hw_count (m : List Nat) : Nat := countKw hardware_keywords (pyLower m)

/-- Raw (unweighted) password keyword count of a message. -/
def pw_count (m : List Nat) : Nat := countKw password_keywords (pyLower m)

/-- Software keyword count of a message. -/
def sw_count (m : List Nat) : Nat := countKw software_keywords (pyLower m)

/-- The short-message / greeting guard of `classify_issue`:
`len(message.strip()) < 10 or message.lower() in [...]`. -/
def classify_guard (m : List Nat) : Bool :=
  (stripL m).length < 10 || (guard_greetings.map cps).any (fun g => pyLower m == g)

/-- `classify_issue` from `existing/response_generator.py`.  The weighted
comparison `1.2 * password_count > other_count` is embedded as
`6 * pw > 5 * other` (exact for all reachable counts, see the float note). -/
def classify_issue (m : List Nat) : String :=
  if classify_guard m then "General"
  else
    let h := hw_count m
    let p := pw_count m
    let s := sw_count m
    if 6 * p > 5 * h && 6 * p > 5 * s then "Password"
    else if s > h && 5 * s > 6 * p then "Software"
    else if h > 0 then "Hardware"
    else "General"

/-!  ## Ontology classifier — `enhanced/neo4j_itsm_manager.py`, `get_issue_classification`

This is the only classifier in the repository that reports a confidence
value.  Python's true division `/ 5` is embedded in `ℚ` (exact for the
reachable numerators, which are bounded by the keyword-list lengths). -/

/-- Hardware keyword list of `get_issue_classification` (source order). -/
def gi_hardware_keywords : List String :=
  ["laptop", "desktop", "printer", "device", "hardware", "keyboard",
   "mouse", "monitor", "screen", "battery", "power", "usb", "disk"]

/-- Software keyword list of `get_issue_classification` (source order). -/
def gi_software_keywords : List String :=
  ["software", "application", "program", "app", "windows", "office",
   "excel", "word", "outlook", "browser", "update", "install",
   "license", "version", "freeze", "crash"]

/-- Network keyword list of `get_issue_classification` (source order). -/
def gi_network_keywords : List String :=
  ["network", "wifi", "internet", "connection", "lan", "vpn",
   "ethernet", "dns", "ip", "wireless", "connect", "access point"]

/-- Security keyword list of `get_issue_classification` (source order). -/
def gi_security_keywords : List String :=
  ["password", "login", "security", "authentication", "access",
   "account", "credentials", "reset", "locked", "mfa", "permission"]

/-- `sum(1 for kw in kws if kw in issue_lower)` (keywords are already lower case). -/
def giCount (kws : List String) (issueLower : List Nat) : Nat :=
  (kws.filter (fun k => isSubCp (cps k) issueLower)).length

/-- Hardware keyword count of `get_issue_classification`. -/
def gi_hw_count (t : String) : Nat := giCount gi_hardware_keywords (pyLower (cps t))

/-- Software keyword count of `get_issue_classification`. -/
def gi_sw_count (t : String) : Nat := giCount gi_software_keywords (pyLower (cps t))

/-- Network keyword count of `get_issue_classification`. -/
def gi_net_count (t : String) : Nat := giCount gi_network_keywords (pyLower (cps t))

/-- Security keyword count of `get_issue_classification`. -/
def gi_sec_count (t : String) : Nat := giCount gi_security_keywords (pyLower (cps t))

/-- Result record of `get_issue_classification`. -/
structure GIResult where
  category : String
  agent_category : String
  primary_keywords : List String
  confidence : ℚ
deriving Repr, DecidableEq

/-- Category selection of `get_issue_classification` (the `if/elif` chain
over the four counts; `category` stays `"General"` when no branch fires). -/
def gi_category (hw sw net sec : Nat) : String :=
  if sec > max hw (max sw net) then "Password"
  else if hw > max sw (max net sec) then "Hardware"
  else if sw > max hw (max net sec) then "Software"
  else if net > max hw (max sw sec) then "Network"
  else "General"

/-- `get_issue_classification` from `enhanced/neo4j_itsm_manager.py`. -/
def get_issue_classification (issue_description : String) : GIResult :=
  let issueLower := pyLower (cps issue_description)
  let hw := giCount gi_hardware_keywords issueLower
  let sw := giCount gi_software_keywords issueLower
  let net := giCount gi_network_keywords issueLower
  let sec := giCount gi_security_keywords issueLower
  let category := gi_category hw sw net sec
  let primary :=
    if sec > max hw (max sw net) then
      gi_security_keywords.filter (fun k => isSubCp (cps k) issueLower)
    else if hw > max sw (max net sec) then
      gi_hardware_keywords.filter (fun k => isSubCp (cps k) issueLower)
    else if sw > max hw (max net sec) then
      gi_software_keywords.filter (fun k => isSubCp (cps k) issueLower)
    else if net > max hw (max sw sec) then
      gi_network_keywords.filter (fun k => isSubCp (cps k) issueLower)
    else []
  { category := category
    agent_category := if category == "Network" then "Hardware" else category
    primary_keywords := primary
    confidence := ((max hw (max sw (max net sec)) : Nat) : ℚ) / 5 }

/-!  ## Python dictionaries, truthiness, split  -/

/-- A Python `dict` of strings, embedded as an association list. -/
def PyDict := List (String × String)
deriving DecidableEq, Inhabited

/-- Python `d.get(k)` (None when absent, embedded as `none`). -/
def pyGet (d : PyDict) (k : String) : Option String :=
  match d.find? (fun p => p.1 == k) with
  | some p => some p.2
  | none => none

/-- Python `d.get(k, default)`. -/
def pyGetD (d : PyDict) (k : String) (dflt : String) : String :=
  (pyGet d k).getD dflt

/-- Python truthiness of an optional string (`None` and `""` are falsy). -/
def truthyS : Option String → Bool
  | none => false
  | some s => !(s == "")

/-- Python truthiness of an optional dict (`None` and `{}` are falsy). -/
def truthyD : Option PyDict → Bool
  | none => false
  | some d => !d.isEmpty

/-- Python `str.split()` with no argument: split on whitespace runs,
discarding empty pieces. -/
def pySplitWs (s : String) : List String :=
  (s.split Char.isWhitespace).filter (fun p => !(p == ""))

/-- Python exceptions that the embedding distinguishes. -/
inductive PyErr
  | indexError
  | keyError
  | other
deriving Repr, DecidableEq

/-- Python `l[0]`: `IndexError` on an empty list. -/
def headE : List String → Except PyErr String
  | [] => .error .indexError
  | x :: _ => .ok x

/-!  ## Session memory — `memory/session_memory.py`

Every mutator of the source updates `session_data["last_updated"]` from the
ambient clock; the clock is passed to each mutator as an explicit `now`
argument (`clear` receives it with the same signature, but the source's
`clear` never reads the clock). -/

/-- The `session_data` dict of `SessionMemory.__init__`. -/
structure SMData where
  created_at : String
  last_updated : String
  user_info : PyDict
  device_info : List PyDict
  issue_data : PyDict
  metadata : PyDict
deriving DecidableEq

/-- `SessionMemory`: chat history (role, content) plus `session_data`. -/
structure SessionMemory where
  session_id : String
  history : List (String × String)
  data : SMData
deriving DecidableEq

/-- `SessionMemory.__init__`: empty history, timestamps set to `now`. -/
def SessionMemory.new (sid now : String) : SessionMemory :=
  { session_id := sid
    history := []
    data := { created_at := now, last_updated := now,
              user_info := [], device_info := [], issue_data := [], metadata := [] } }

/-- `SessionMemory.clear`: `self.memory.clear()` empties the chat history;
nothing else in the method touches `session_data`. -/
def SessionMemory.clear (m : SessionMemory) (_now : String) : SessionMemory :=
  { m with history := [] }

/-- `SessionMemory.add_user_message`. -/
def SessionMemory.add_user_message (m : SessionMemory) (msg now : String) : SessionMemory :=
  { m with history := m.history ++ [("user", msg)]
           data := { m.data with last_updated := now } }

/-- `SessionMemory.add_ai_message`. -/
def SessionMemory.add_ai_message (m : SessionMemory) (msg now : String) : SessionMemory :=
  { m with history := m.history ++ [("assistant", msg)]
           data := { m.data with last_updated := now } }

/-- Python `d1.update(d2)`: merge `d2` into `d1`, overwriting existing keys. -/
def dictUpdate (d1 d2 : PyDict) : PyDict :=
  d2.foldl (fun acc p => (p.1, p.2) :: acc.filter (fun q => !(q.1 == p.1))) d1

/-- `SessionMemory.add_system_context`: merge the optional `user_info`,
`device_info` (replaced wholesale when a list is passed, as at the call
sites) and `issue_data` keys of the context into `session_data`. -/
def SessionMemory.add_system_context (m : SessionMemory)
    (user_info : Option PyDict) (device_info : Option (List PyDict))
    (issue_data : Option PyDict) (now : String) : SessionMemory :=
  let d := m.data
  let d := match user_info with
    | some u => { d with user_info := dictUpdate d.user_info u }
    | none => d
  let d := match device_info with
    | some l => { d with device_info := l }
    | none => d
  let d := match issue_data with
    | some i => { d with issue_data := dictUpdate d.issue_data i }
    | none => d
  { m with data := { d with last_updated := now } }

/-!  ## Sessions and the session store — `existing/session_manager.py`

`get_session` inserts a freshly constructed `Session` into the dict and
returns it; in Python the caller then mutates that object in place, so every
mutation is visible in the store.  The embedding threads the mutated session
explicitly and re-inserts it on every path. -/

/-- The `Session` object of `existing/session_manager.py`.  `greeted` and
`language` are set dynamically via `setattr`/`hasattr` in the orchestrator;
they are embedded as an always-present `Bool` (default `false`) and
`Option String` (default `none`). -/
structure Session where
  session_id : String
  customer_number : Option String := none
  customer_email : Option String := none
  employee_id : Option String := none
  agent_id : Option String := none
  employee_info : Option PyDict := none
  devices : List PyDict := []
  conversation_id : String
  messages : List (String × String) := []
  channel_telephony : Bool := false
  channel_chat : Bool := false
  issue_type : Option String := none
  created_at : String
  last_updated : String
  call_data : PyDict := []
  asked_about_devices : Bool := false
  selected_device : Option String := none
  initial_greeting : Option String := none
  greeted : Bool := false
  language : Option String := none
deriving DecidableEq

/-- Ambient environment: clock hour, timestamp string, fresh uuid. -/
structure Env where
  hour : Nat
  now : String
  uuid : String

/-- `Session.__init__` (uuid and timestamps from the ambient environment). -/
def Session.new (sid : String) (env : Env) : Session :=
  { session_id := sid, conversation_id := env.uuid,
    created_at := env.now, last_updated := env.now }

/-- The in-memory session dict of `SessionManager`. -/
def SessionStore := List (String × Session)

/-- Dict lookup in the session store. -/
def store_lookup (st : SessionStore) (sid : String) : Option Session :=
  match List.find? (fun p => p.1 == sid) st with
  | some p => some p.2
  | none => none

/-- Dict assignment `self.sessions[sid] = s`. -/
def store_insert (st : SessionStore) (sid : String) (s : Session) : SessionStore :=
  (sid, s) :: List.filter (fun p => !(p.1 == sid)) st

/-- `session_id in self.sessions`. -/
def store_contains (st : SessionStore) (sid : String) : Bool :=
  (store_lookup st sid).isSome

/-- `SessionManager.get_session`: return the stored session, or construct,
store and return a new one. -/
def get_session (env : Env) (st : SessionStore) (sid : String) : SessionStore × Session :=
  match store_lookup st sid with
  | some s => (st, s)
  | none =>
    let s := Session.new sid env
    (store_insert st sid s, s)

/-- `SessionManager.save_session`. -/
def save_session (st : SessionStore) (s : Session) : SessionStore :=
  store_insert st s.session_id s

/-- Python `del self.sessions[session_id]`: `KeyError` when the key is
absent; removes the key's entry otherwise. -/
def pyDictDel (st : SessionStore) (sid : String) : Except PyErr SessionStore :=
  if store_contains st sid then
    .ok (List.filter (fun p => !(p.1 == sid)) st)
  else .error .keyError

/-- `SessionManager.end_session`: delete the session only when present
(the membership guard makes the `del` safe). -/
def end_session (st : SessionStore) (sid : String) : Except PyErr SessionStore :=
  if store_contains st sid then pyDictDel st sid
  else .ok st

/-!  ## Response generator — `existing/response_generator.py`  -/

/-- Time-of-day greeting used by the response generator. -/
def time_greeting (hour : Nat) : String :=
  if 5 ≤ hour ∧ hour < 12 then "Good morning"
  else if 12 ≤ hour ∧ hour < 18 then "Good afternoon"
  else "Good evening"

/-- The greeting prefix of `generate_fallback_response`:
`"Hi {first_name}, "` when the session carries a truthy employee name,
`"Hello, "` otherwise.  `name.split()[0]` raises `IndexError` when the name
is truthy but all whitespace. -/
def fallback_greeting (session : Option Session) : Except PyErr String :=
  match session with
  | some s =>
    match s.employee_info with
    | some info =>
      if truthyD (some info) ∧ truthyS (pyGet info "name") then
        match pyGet info "name" with
        | some name =>
          (match headE (pySplitWs name) with
           | .error e => .error e
           | .ok fn => .ok ("Hi " ++ fn ++ ", "))
        | none => .ok "Hello, "
      else .ok "Hello, "
    | none => .ok "Hello, "
  | none => .ok "Hello, "

/-- The issue-specific text of `generate_fallback_response` (every `return`
of the source is `f"{greeting}<text>"`; this is the `<text>` part, selected
by the source's if/elif chain). -/
def fallback_body (user_message : String) (issue_type error_type : Option String) : String :=
  if error_type == some "timeout" then
    "I apologize for the delay. Our system is experiencing some momentary slowness. Could you please provide some additional details about your issue so I can assist you better once our systems are back to normal speed?"
  else
  let ml := pyLower (cps user_message)
  if (guard_greetings.map cps).any (fun g => ml == g) then
    "I'm ME.ai Assistant, your IT support specialist. How can I help you today?"
  else if issue_type == some "Password" then
    if isSubCp (cps "reset") ml || isSubCp (cps "forgot") ml then
      "I understand you need to reset your password. I'd be happy to help with that. For security reasons, I'll need to verify your identity first. Could you please confirm your department and employee ID?"
    else if isSubCp (cps "locked") ml || isSubCp (cps "locked out") ml then
      "I see that your account is locked. This typically happens after multiple incorrect password attempts. Let me help you regain access. First, could you tell me which system or application you're trying to access?"
    else
      "I understand you're having an issue with authentication or accessing your account. To help you better, could you specify which system or application you're having trouble accessing?"
  else if issue_type == some "Hardware" then
    if ["slow", "performance", "freezing", "frozen"].any (fun w => isSubCp (cps w) ml) then
      "I'm sorry to hear your device is running slowly. This could be due to several factors such as low disk space, too many applications running, or outdated software. Could you tell me which operating system you're using, and approximately when you started noticing the issue?"
    else if ["printer", "print", "scanning"].any (fun w => isSubCp (cps w) ml) then
      "I understand you're having an issue with a printer. Let me help troubleshoot that. First, could you tell me the model of the printer, and whether it's connected via network or USB?"
    else if ["wifi", "internet", "connection", "network"].any (fun w => isSubCp (cps w) ml) then
      "I see you're experiencing network connectivity issues. Let's try to resolve this. Are you having trouble connecting to the WiFi, or is your device connected but you can't access specific websites or services?"
    else
      "Thank you for reaching out about your hardware issue. To help me troubleshoot effectively, could you tell me which specific device you're having problems with, and what symptoms you're experiencing?"
  else if issue_type == some "Software" then
    if ["install", "download", "setup"].any (fun w => isSubCp (cps w) ml) then
      "I understand you need help installing software. To assist you better, could you tell me which application you're trying to install, and what error or issue you're encountering during the installation process?"
    else if ["update", "upgrade", "patch"].any (fun w => isSubCp (cps w) ml) then
      "I see you're having issues with a software update. These can sometimes be tricky. Could you let me know which program needs updating, and what happens when you try to update it?"
    else if ["office", "excel", "word", "powerpoint", "outlook"].any (fun w => isSubCp (cps w) ml) then
      "I understand you're experiencing an issue with Microsoft Office. To help you more effectively, could you specify which Office application is giving you trouble, and describe what happens when the problem occurs?"
    else
      "I understand you're having a software issue. To help me troubleshoot effectively, could you tell me which specific application you're having problems with, and what error messages or unexpected behaviors you're seeing?"
  else
    "Thank you for reaching out to IT support. I'd like to help with your issue, but I need a bit more information. Could you provide more details about what you're experiencing so I can better assist you?"

/-- `generate_fallback_response` from `existing/response_generator.py`: the
greeting prefix (which may raise on a whitespace-only employee name)
followed by the issue-specific text. -/
def generate_fallback_response (user_message : String) (session : Option Session)
    (issue_type : Option String) (error_type : Option String) : Except PyErr String :=
  match fallback_greeting session with
  | .error e => .error e
  | .ok greeting => .ok (greeting ++ fallback_body user_message issue_type error_type)

/-- `generate_initial_greeting` from `existing/response_generator.py`.
`name.split()[0]` raises `IndexError` when the employee dict is truthy but
carries no usable name. -/
def generate_initial_greeting (env : Env) (session : Session) : Except PyErr String :=
  let tg := time_greeting env.hour
  match session.employee_info with
  | some info =>
    if truthyD (some info) then
      match headE (pySplitWs (pyGetD info "name" "")) with
      | .error e => .error e
      | .ok employee_name =>
        let department := pyGetD info "department" ""
        let g := tg ++ ", " ++ employee_name ++ "! I'm ME.ai Assistant, your IT support specialist."
        let g := if !(department == "") then
                   g ++ " I see you're from the " ++ department ++ " department."
                 else g
        .ok (g ++ " How can I help you with your IT needs today?")
    else
      .ok (tg ++ "! I'm ME.ai Assistant, your IT support specialist. How can I help you today?")
  | none =>
    .ok (tg ++ "! I'm ME.ai Assistant, your IT support specialist. How can I help you today?")

/-!  ## Collaborator oracles

LLM chains, the HTTP DB service and the conversation logger are external
collaborators; each is an oracle whose every call may raise. -/

/-- External collaborators of the orchestrator (each call may raise). -/
structure Collab where
  find_employee_by_contact : String → String → Except PyErr (Option PyDict)
  get_employee_devices : PyDict → Except PyErr (List PyDict)
  find_agent_by_specialization : String → Except PyErr (Option PyDict)
  log_conversation_to_db : String → String → String → String → Except PyErr Unit
  conversation_llm : String → Except PyErr String
  issue_chain_llm : String → Except PyErr String
  classifier_llm : String → Except PyErr String
  agent_executor_llm : String → String → Except PyErr String

/-- The orchestrator's `session_memories` dict. -/
def Mems := List (String × SessionMemory)

/-- Dict lookup in `session_memories`. -/
def mems_lookup (ms : Mems) (sid : String) : Option SessionMemory :=
  match List.find? (fun p => p.1 == sid) ms with
  | some p => some p.2
  | none => none

/-- Dict assignment in `session_memories`. -/
def mems_insert (ms : Mems) (sid : String) (m : SessionMemory) : Mems :=
  (sid, m) :: List.filter (fun p => !(p.1 == sid)) ms

/-- `MEAgentOrchestrator._get_or_create_memory`. -/
def get_or_create_memory (ms : Mems) (sid now : String) : Mems × SessionMemory :=
  match mems_lookup ms sid with
  | some m => (ms, m)
  | none =>
    let m := SessionMemory.new sid now
    (mems_insert ms sid m, m)

/-!  ## Chains — `chains/conversation.py` and `chains/workflow.py`  -/

/-- The apology returned by `MEConversationChain.process` when its chain
raises (the method catches every exception internally). -/
def chain_apology_text : String :=
  "I apologize, but I'm experiencing technical difficulties. Please try again or contact our IT team directly if your issue is urgent."

/-- `MEConversationChain.process`: run the LLM chain; on any exception
return the fixed apology.  Total by construction. -/
def MEConversationChain.process (c : Collab) (user_input : String) : String :=
  match c.conversation_llm user_input with
  | .ok s => s
  | .error _ => chain_apology_text

/-- Python `result.split(sep)[1].split("\n")[0].strip()`, called only under
an `if sep in result` guard (so index 1 exists). -/
def parse_after (result sep : String) : String :=
  let afterSep := match result.splitOn sep with
    | _ :: x :: _ => x
    | _ => ""
  (match afterSep.splitOn "\n" with
   | x :: _ => x
   | [] => "") |>.trim

/-- Result record of `WorkflowChain.classify_issue_detailed`. -/
structure IssueClassification where
  category : String
  subcategory : String
  priority : String
  full_response : String

/-- `WorkflowChain.classify_issue_detailed`: run the issue chain and parse
the CATEGORY/SUBCATEGORY/PRIORITY lines; on any exception return the fixed
Unknown record (the method catches internally, so it never raises). -/
def WorkflowChain.classify_issue_detailed (c : Collab) (conversation : String) : IssueClassification :=
  match c.issue_chain_llm conversation with
  | .error _ =>
    { category := "Unknown", subcategory := "Unknown", priority := "Medium",
      full_response := "Error in classification" }
  | .ok result =>
    { category := if pyInS "CATEGORY:" result then parse_after result "CATEGORY:" else "Unknown"
      subcategory := if pyInS "SUBCATEGORY:" result then parse_after result "SUBCATEGORY:" else "Unknown"
      priority := if pyInS "PRIORITY:" result then parse_after result "PRIORITY:" else "Medium"
      full_response := result }

/-!  ## Agents — `agent/base_agent.py`

The LangChain executor run (prompt building plus LLM call) is the
`agent_executor_llm` oracle, keyed by agent type and input; on an exception
the agent falls back to `generate_fallback_response` with its own agent type
(which may itself raise `IndexError`, propagating to the caller). -/

/-- `MeAIBaseAgent.process`. -/
def MeAIBaseAgent.process (c : Collab) (agent_type input : String)
    (session : Option Session) : Except PyErr String :=
  match c.agent_executor_llm agent_type input with
  | .ok r => .ok r
  | .error _ => generate_fallback_response input session (some agent_type) none

/-!  ## `MEAgentOrchestrator` — `me_agent_orchestrator.py`  -/

/-- `MEAgentOrchestrator.classify_issue_type`: workflow-chain category
mapped onto the four agent categories (its `except` returns General, but no
exception can escape `classify_issue_detailed`). -/
def MEAgentOrchestrator.classify_issue_type (c : Collab) (query : String) : String :=
  let conversation := "User: " ++ query
  let category := (WorkflowChain.classify_issue_detailed c conversation).category
  if pyInS "Hardware" category || pyInS "Device" category then "Hardware"
  else if pyInS "Software" category || pyInS "Application" category then "Software"
  else if pyInS "Password" category || pyInS "Access" category || pyInS "Account" category then "Password"
  else "General"

/-- The fixed greeting of `MEAgentOrchestrator.get_initial_greeting`'s
`except` handler. -/
def greeting_fallback_text : String :=
  "Hello! I'm ME.ai Assistant, your IT support specialist. How can I help you today?"

/-- Tail of `MEAgentOrchestrator.get_initial_greeting` after the employee
lookup: personalized chain greeting when `employee_info` is truthy
(`name.split()[0]` may raise into the method's own handler), otherwise
`generate_initial_greeting`. -/
def MEAgentOrchestrator.greeting_reply (c : Collab) (env : Env) (mems : Mems)
    (session : Session) : Mems × Session × String :=
  if truthyD session.employee_info then
    match session.employee_info with
    | some info =>
      (match headE (pySplitWs (pyGetD info "name" "")) with
       | .error _ => (mems, session, greeting_fallback_text)
       | .ok _employee_name => (mems, session, MEConversationChain.process c "Hello"))
    | none => (mems, session, greeting_fallback_text)
  else
    match generate_initial_greeting env session with
    | .ok g => (mems, session, g)
    | .error _ => (mems, session, greeting_fallback_text)

/-- `MEAgentOrchestrator.get_initial_greeting`: best-effort employee
identification (mutations persist even when a later collaborator call
raises), then a greeting; the surrounding `except` yields the fixed
fallback greeting, so the function is total. -/
def MEAgentOrchestrator.get_initial_greeting (c : Collab) (env : Env) (mems : Mems)
    (session : Session) : Mems × Session × String :=
  if !truthyS session.employee_id ∧ (truthyS session.customer_email || truthyS session.customer_number) then
    match (if truthyS session.customer_email
           then c.find_employee_by_contact "email" ((session.customer_email).getD "")
           else .ok none) with
    | .error _ => (mems, session, greeting_fallback_text)
    | .ok emp1 =>
      match (if !truthyD emp1 ∧ truthyS session.customer_number
             then c.find_employee_by_contact "phone" ((session.customer_number).getD "")
             else .ok emp1) with
      | .error _ => (mems, session, greeting_fallback_text)
      | .ok employee =>
        match employee with
        | some emp =>
          if truthyD (some emp) then
            let session := { session with employee_id := pyGet emp "employee_id",
                                          employee_info := some emp }
            match c.get_employee_devices emp with
            | .error _ => (mems, session, greeting_fallback_text)
            | .ok devices =>
              let session := { session with devices := devices }
              let (mems, mem) := get_or_create_memory mems session.session_id env.now
              let mem := mem.add_system_context (some emp) (some devices) none env.now
              let mems := mems_insert mems session.session_id mem
              MEAgentOrchestrator.greeting_reply c env mems session
          else MEAgentOrchestrator.greeting_reply c env mems session
        | none => MEAgentOrchestrator.greeting_reply c env mems session
  else MEAgentOrchestrator.greeting_reply c env mems session

/-- Routing tail of `MEAgentOrchestrator.process_query` (after the
classification step): agent selection, lazy agent-id lookup, delegation,
memory/logging bookkeeping, with the method's `except` falling back to
`generate_fallback_response(query, session)` — which may itself raise out
of the function. -/
def MEAgentOrchestrator.pq_route (c : Collab) (env : Env) (mems : Mems)
    (session : Session) (issue_type : String) (query : String) :
    Mems × Session × Except PyErr String :=
  let agent_type := if issue_type == "Hardware" || issue_type == "Software" || issue_type == "Password"
                    then issue_type else "Hardware"
  match (if !truthyS session.agent_id
         then c.find_agent_by_specialization issue_type
         else .ok none) with
  | .error _ => (mems, session, generate_fallback_response query (some session) none none)
  | .ok agent_info =>
    let session :=
      match agent_info with
      | some info =>
        if truthyD (some info) then { session with agent_id := pyGet info "agent_id" }
        else session
      | none => session
    match MeAIBaseAgent.process c agent_type query (some session) with
    | .error _ => (mems, session, generate_fallback_response query (some session) none none)
    | .ok response =>
      let mem := (mems_lookup mems session.session_id).getD (SessionMemory.new session.session_id env.now)
      let mem := mem.add_ai_message response env.now
      let mems := mems_insert mems session.session_id mem
      let _ := if truthyS session.employee_id ∧ truthyS session.agent_id then
                 c.log_conversation_to_db session.conversation_id
                   ((session.employee_id).getD "") ((session.agent_id).getD "") response
               else .ok ()
      (mems, session, .ok response)

/-- `MEAgentOrchestrator.process_query`: memory update, sticky
classification (only an unset or General `issue_type` is reclassified),
then the routing tail. -/
def MEAgentOrchestrator.process_query (c : Collab) (env : Env) (mems : Mems)
    (session : Session) (query : String) : Mems × Session × Except PyErr String :=
  let (mems, mem) := get_or_create_memory mems session.session_id env.now
  let mem := mem.add_user_message query env.now
  let cls := !truthyS session.issue_type || session.issue_type == some "General"
  let issue_type := if cls then MEAgentOrchestrator.classify_issue_type c query
                    else (session.issue_type).getD ""
  let session := if cls then { session with issue_type := some issue_type } else session
  let mem := if cls then
               mem.add_system_context none none
                 (some [("type", issue_type), ("classified_at", env.now)]) env.now
             else mem
  let mems := mems_insert mems session.session_id mem
  MEAgentOrchestrator.pq_route c env mems session issue_type query

/-- Greeting phrases of the `process_message` short-circuit (substring
test on the lowered message). -/
def pm_greeting_words : List String :=
  ["hello", "hi", "hey", "good morning", "good afternoon", "good evening"]

/-- `any(greeting in message.lower() for greeting in [...])`. -/
def message_has_greeting (message : String) : Bool :=
  pm_greeting_words.any (fun g => isSubCp (cps g) (pyLower (cps message)))

/-- The apology of `MEAgentOrchestrator.process_message`'s `except` handler. -/
def apology_text : String :=
  "I apologize, but I'm experiencing technical difficulties. Please try again later or contact our IT support team directly if your issue is urgent."

/-- Greeting branch of `process_message`: greet, set `greeted`, record the
turn, persist. -/
def MEAgentOrchestrator.pm_greet_branch (c : Collab) (env : Env) (store : SessionStore)
    (mems : Mems) (message : String) (session : Session) : SessionStore × Mems × String :=
  let (mems, session, greeting) := MEAgentOrchestrator.get_initial_greeting c env mems session
  let session := { session with
                   greeted := true
                   messages := session.messages ++ [("user", message), ("assistant", greeting)] }
  (save_session store session, mems, greeting)

/-- Routing branch of `process_message`: record the user turn, delegate to
`process_query`, record the reply and persist; a raise out of
`process_query` reaches the top-level handler, which returns the apology
(the in-place-mutated session is still visible in the store). -/
def MEAgentOrchestrator.pm_route_branch (c : Collab) (env : Env) (store : SessionStore)
    (mems : Mems) (message : String) (session : Session) : SessionStore × Mems × String :=
  let session := { session with messages := session.messages ++ [("user", message)] }
  match MEAgentOrchestrator.process_query c env mems session message with
  | (mems, session, .ok response) =>
    let session := { session with messages := session.messages ++ [("assistant", response)] }
    (save_session store session, mems, response)
  | (mems, session, .error _) =>
    (store_insert store session.session_id session, mems, apology_text)

/-- The identity-hint merging step at the top of `process_message`. -/
def merge_hints (session : Session) (user_email user_phone language : Option String) : Session :=
  let session := if truthyS user_email then { session with customer_email := user_email } else session
  let session := if truthyS user_phone then { session with customer_number := user_phone } else session
  if truthyS language ∧ session.language.isNone then { session with language := language } else session

/-- `MEAgentOrchestrator.process_message`: get-or-create the session, merge
identity hints, then either the greeting short-circuit or the routing
branch.  Total: every collaborator failure resolves to a string. -/
def MEAgentOrchestrator.process_message (c : Collab) (env : Env) (store : SessionStore)
    (mems : Mems) (message session_id : String)
    (user_email user_phone language : Option String) : SessionStore × Mems × String :=
  let (store, session) := get_session env store session_id
  let session := merge_hints session user_email user_phone language
  if !session.greeted ∧ message_has_greeting message then
    MEAgentOrchestrator.pm_greet_branch c env store mems message session
  else
    MEAgentOrchestrator.pm_route_branch c env store mems message session

/-!  ## `AgentOrchestrator` — `agent/orchestrator.py`  -/

/-- `AgentOrchestrator.classify_issue_type`: keyword classifier first; only
a General result consults the LLM classifier chain (whose raise is caught,
yielding General). -/
def AgentOrchestrator.classify_issue_type (c : Collab) (query : String) : String :=
  let issue_type := classify_issue (cps query)
  if issue_type == "General" then
    match c.classifier_llm query with
    | .error _ => "General"
    | .ok response =>
      let r := response.trim
      if pyInS "Hardware" r then "Hardware"
      else if pyInS "Software" r then "Software"
      else if pyInS "Password" r then "Password"
      else "General"
  else issue_type

/-- `AgentOrchestrator.process_query`: classify only when the session's
`issue_type` is falsy (`None`/empty) — a stored value, General included, is
reused; then delegate.  The `except` handler's fallback may itself raise
out of the function. -/
def AgentOrchestrator.process_query (c : Collab) (query : String)
    (session : Option Session) : Option Session × Except PyErr String :=
  let (session, issue_type) :=
    match session with
    | some s =>
      if !truthyS s.issue_type then
        let it := AgentOrchestrator.classify_issue_type c query
        (some { s with issue_type := some it }, it)
      else (some s, (s.issue_type).getD "")
    | none => (none, AgentOrchestrator.classify_issue_type c query)
  let agent_type := if issue_type == "Hardware" || issue_type == "Software" || issue_type == "Password"
                    then issue_type else "Hardware"
  match MeAIBaseAgent.process c agent_type query session with
  | .ok r => (session, .ok r)
  | .error _ => (session, generate_fallback_response query session none none)

/-- A collaborator assignment in which every call raises. -/
def failCollab : Collab :=
  { find_employee_by_contact := fun _ _ => .error .other
    get_employee_devices := fun _ => .error .other
    find_agent_by_specialization := fun _ => .error .other
    log_conversation_to_db := fun _ _ _ _ => .error .other
    conversation_llm := fun _ => .error .other
    issue_chain_llm := fun _ => .error .other
    classifier_llm := fun _ => .error .other
    agent_executor_llm := fun _ _ => .error .other }

/-- A concrete environment for witnesses. -/
def env0 : Env := { hour := 10, now := "2025-01-01T10:00:00", uuid := "uuid-0" }

/-!  # Lemmas and claim theorems  -/

lemma lowerCp_idem (n : Nat) : lowerCp (lowerCp n) = lowerCp n := by
  by_cases h : 65 ≤ n ∧ n ≤ 90
  · have e1 : lowerCp n = n + 32 := by unfold lowerCp; exact if_pos h
    have h2 : ¬(65 ≤ n + 32 ∧ n + 32 ≤ 90) := by omega
    rw [e1]
    unfold lowerCp
    exact if_neg h2
  · have e1 : lowerCp n = n := by unfold lowerCp; exact if_neg h
    rw [e1]
    exact e1

lemma isSpaceCp_lowerCp (n : Nat) : isSpaceCp (lowerCp n) = isSpaceCp n := by
  by_cases h : 65 ≤ n ∧ n ≤ 90
  · simp only [lowerCp, if_pos h]
    rw [Bool.eq_iff_iff]
    simp only [isSpaceCp, Bool.or_eq_true, beq_iff_eq]
    omega
  · simp [lowerCp, h]

lemma lowerL_idem (l : List Nat) : lowerL (lowerL l) = lowerL l := by
  unfold lowerL
  rw [List.map_map]
  apply List.map_congr_left
  intro a _
  exact lowerCp_idem a

lemma dropWhile_lowerL (l : List Nat) :
    (lowerL l).dropWhile isSpaceCp = lowerL (l.dropWhile isSpaceCp) := by
  unfold lowerL
  rw [List.dropWhile_map]
  have h : (isSpaceCp ∘ lowerCp) = isSpaceCp := funext isSpaceCp_lowerCp
  rw [h]

lemma stripL_lowerL (l : List Nat) : stripL (lowerL l) = lowerL (stripL l) := by
  have hcomp : (isSpaceCp ∘ lowerCp) = isSpaceCp := funext isSpaceCp_lowerCp
  simp only [stripL, lowerL]
  rw [List.dropWhile_map, hcomp, ← List.map_reverse, List.dropWhile_map, hcomp,
      ← List.map_reverse]

lemma stripL_lowerL_length (l : List Nat) :
    (stripL (lowerL l)).length = (stripL l).length := by
  rw [stripL_lowerL]
  simp [lowerL]

lemma lowerCp_lt_128 (n : Nat) (h : n < 128) : lowerCp n < 128 := by
  unfold lowerCp
  split <;> omega

lemma pyLowerOne_ascii (n : Nat) (h : n < 128) : pyLowerOne n = [lowerCp n] := by
  unfold pyLowerOne
  rw [if_neg (by omega), if_neg (by omega)]

lemma pyLower_ascii (l : List Nat) (h : ∀ n ∈ l, n < 128) : pyLower l = lowerL l := by
  induction l with
  | nil => rfl
  | cons a t ih =>
    unfold pyLower lowerL at ih ⊢
    rw [List.flatMap_cons, pyLowerOne_ascii a (h a (by simp)),
        ih (fun n hn => h n (by simp [hn]))]
    rfl

lemma mem_lowerL_lt_128 (l : List Nat) (h : ∀ n ∈ l, n < 128) :
    ∀ n ∈ lowerL l, n < 128 := by
  intro n hn
  unfold lowerL at hn
  obtain ⟨a, ha, rfl⟩ := List.mem_map.mp hn
  exact lowerCp_lt_128 a (h a ha)

lemma pyLower_lowerL (l : List Nat) (h : ∀ n ∈ l, n < 128) :
    pyLower (lowerL l) = lowerL l := by
  rw [pyLower_ascii (lowerL l) (mem_lowerL_lt_128 l h), lowerL_idem]

lemma classify_guard_pyLower (m : List Nat) (h : ∀ n ∈ m, n < 128) :
    classify_guard (pyLower m) = classify_guard m := by
  unfold classify_guard
  rw [pyLower_ascii m h, stripL_lowerL_length, pyLower_lowerL m h]

lemma hw_count_pyLower (m : List Nat) (h : ∀ n ∈ m, n < 128) :
    hw_count (pyLower m) = hw_count m := by
  unfold hw_count
  rw [pyLower_ascii m h, pyLower_lowerL m h]

lemma pw_count_pyLower (m : List Nat) (h : ∀ n ∈ m, n < 128) :
    pw_count (pyLower m) = pw_count m := by
  unfold pw_count
  rw [pyLower_ascii m h, pyLower_lowerL m h]

lemma sw_count_pyLower (m : List Nat) (h : ∀ n ∈ m, n < 128) :
    sw_count (pyLower m) = sw_count m := by
  unfold sw_count
  rw [pyLower_ascii m h, pyLower_lowerL m h]

/-- C10 (amended) — classifier determinism and restricted
case-insensitivity: `classify_issue` is a pure function of the message (a
Lean function, so determinism is by construction), and for every ALL-ASCII
message `classify_issue(m.lower()) = classify_issue(m)`.  The unrestricted
equation is false of the program: Python lowercases U+0130 to the two code
points "i"+U+0307, which can move a message across the 10-character length
guard (see the counterexample). -/
theorem classify_issue_lower (m : List Nat) (h : ∀ n ∈ m, n < 128) :
    classify_issue (pyLower m) = classify_issue m := by
  unfold classify_issue
  rw [classify_guard_pyLower m h, hw_count_pyLower m h, pw_count_pyLower m h,
      sw_count_pyLower m h]

/-- Witness for C10: a mixed-case ASCII message classifies the same as its
lower-cased form. -/
theorem classify_issue_lower_witness :
    (∀ n ∈ cps "My Laptop Is SLOW Today", n < 128) ∧
    classify_issue (pyLower (cps "My Laptop Is SLOW Today")) =
      classify_issue (cps "My Laptop Is SLOW Today") :=
  ⟨by decide, classify_issue_lower (cps "My Laptop Is SLOW Today") (by decide)⟩

/-- Counterexample for C10 as stated: "İusbdrive" has 9 characters, so the
length guard classifies it General; its Python lower-casing expands U+0130
to two code points, giving a 10-character message that passes the guard and
classifies Hardware (it contains "usb" and "drive"). -/
theorem classify_issue_lower_counterexample :
    (cps "İusbdrive").length = 9 ∧
    (pyLower (cps "İusbdrive")).length = 10 ∧
    classify_issue (cps "İusbdrive") = "General" ∧
    classify_issue (pyLower (cps "İusbdrive")) = "Hardware" :=
  ⟨by decide, by decide, by decide, by decide⟩

lemma classify_eq_password (m : List Nat) (hg : classify_guard m = false)
    (h1 : 6 * pw_count m > 5 * hw_count m) (h2 : 6 * pw_count m > 5 * sw_count m) :
    classify_issue m = "Password" := by
  unfold classify_issue
  rw [hg]
  simp [h1, h2]

lemma no_password_branch (m : List Nat)
    (hp : ¬(6 * pw_count m > 5 * hw_count m ∧ 6 * pw_count m > 5 * sw_count m)) :
    (decide (6 * pw_count m > 5 * hw_count m) && decide (6 * pw_count m > 5 * sw_count m)) = false := by
  by_cases h1 : 6 * pw_count m > 5 * hw_count m
  · have h2 : ¬(6 * pw_count m > 5 * sw_count m) := fun h2 => hp ⟨h1, h2⟩
    simp [h1, h2]
  · simp [h1]

lemma no_software_branch (m : List Nat)
    (hs : ¬(sw_count m > hw_count m ∧ 5 * sw_count m > 6 * pw_count m)) :
    (decide (sw_count m > hw_count m) && decide (5 * sw_count m > 6 * pw_count m)) = false := by
  by_cases h1 : sw_count m > hw_count m
  · have h2 : ¬(5 * sw_count m > 6 * pw_count m) := fun h2 => hs ⟨h1, h2⟩
    simp [h1, h2]
  · simp [h1]

lemma classify_eq_software (m : List Nat) (hg : classify_guard m = false)
    (hp : ¬(6 * pw_count m > 5 * hw_count m ∧ 6 * pw_count m > 5 * sw_count m))
    (hs1 : sw_count m > hw_count m) (hs2 : 5 * sw_count m > 6 * pw_count m) :
    classify_issue m = "Software" := by
  unfold classify_issue
  rw [hg]
  simp [no_password_branch m hp, hs1, hs2]

lemma classify_eq_hardware (m : List Nat) (hg : classify_guard m = false)
    (hp : ¬(6 * pw_count m > 5 * hw_count m ∧ 6 * pw_count m > 5 * sw_count m))
    (hs : ¬(sw_count m > hw_count m ∧ 5 * sw_count m > 6 * pw_count m))
    (hh : 0 < hw_count m) :
    classify_issue m = "Hardware" := by
  unfold classify_issue
  rw [hg]
  simp [no_password_branch m hp, no_software_branch m hs, hh]

lemma classify_eq_general (m : List Nat) (hg : classify_guard m = false)
    (hp : ¬(6 * pw_count m > 5 * hw_count m ∧ 6 * pw_count m > 5 * sw_count m))
    (hs : ¬(sw_count m > hw_count m ∧ 5 * sw_count m > 6 * pw_count m))
    (hh : hw_count m = 0) :
    classify_issue m = "General" := by
  have hb1 := no_password_branch m hp
  have hb2 := no_software_branch m hs
  unfold classify_issue
  rw [hg]
  simp only [Bool.false_eq_true, if_false, hb1, hb2]
  simp [hh]

/-- C3 (amended) — Password wins only on a STRICT weighted majority: if the
weighted password count (`count × 1.2`, embedded as `6 * count` against
`5 * other`) is strictly greater than both the hardware and the software
counts, `classify_issue` returns `"Password"`.  (A weighted tie does not go
to Password: see the counterexample.) -/
theorem classify_issue_password_strict (m : List Nat)
    (hg : classify_guard m = false)
    (h1 : 6 * pw_count m > 5 * hw_count m)
    (h2 : 6 * pw_count m > 5 * sw_count m) :
    classify_issue m = "Password" :=
  classify_eq_password m hg h1 h2

/-- Witness for C3: the spec's own example input is classified Password. -/
theorem classify_issue_password_strict_witness :
    classify_guard (cps "my password is locked and I forgot my login") = false ∧
    classify_issue (cps "my password is locked and I forgot my login") = "Password" :=
  ⟨by decide,
   classify_issue_password_strict (cps "my password is locked and I forgot my login")
     (by decide) (by decide) (by decide)⟩

/-- Counterexample for C3 as stated: a message with 5 password keywords and
6 hardware keywords gives a weighted password count (6·5 = 30 against
5·6 = 30) that is greater than or EQUAL to both other counts, yet
`classify_issue` returns Hardware, not Password. -/
theorem classify_issue_tie_counterexample :
    classify_guard (cps "forgot reset locked account username keyboard mouse printer battery monitor webcam") = false ∧
    6 * pw_count (cps "forgot reset locked account username keyboard mouse printer battery monitor webcam") ≥
      5 * hw_count (cps "forgot reset locked account username keyboard mouse printer battery monitor webcam") ∧
    6 * pw_count (cps "forgot reset locked account username keyboard mouse printer battery monitor webcam") ≥
      5 * sw_count (cps "forgot reset locked account username keyboard mouse printer battery monitor webcam") ∧
    classify_issue (cps "forgot reset locked account username keyboard mouse printer battery monitor webcam") ≠ "Password" :=
  ⟨by decide, by decide, by decide, by decide⟩

/-- C4 (amended) — exact winner semantics of `classify_issue` past the
guard: Password and Software are returned exactly on a strict (weighted)
majority; otherwise Hardware is returned whenever ANY hardware keyword
matched (even on a tie or a non-maximal hardware count), and General
exactly when neither Password nor Software wins and the hardware count is
zero (which can happen with non-zero counts). -/
theorem classify_issue_characterization (m : List Nat)
    (hg : classify_guard m = false) :
    (classify_issue m = "Password" ↔
       (6 * pw_count m > 5 * hw_count m ∧ 6 * pw_count m > 5 * sw_count m))
    ∧ (classify_issue m = "Software" ↔
       (¬(6 * pw_count m > 5 * hw_count m ∧ 6 * pw_count m > 5 * sw_count m) ∧
        sw_count m > hw_count m ∧ 5 * sw_count m > 6 * pw_count m))
    ∧ (classify_issue m = "Hardware" ↔
       (¬(6 * pw_count m > 5 * hw_count m ∧ 6 * pw_count m > 5 * sw_count m) ∧
        ¬(sw_count m > hw_count m ∧ 5 * sw_count m > 6 * pw_count m) ∧
        0 < hw_count m))
    ∧ (classify_issue m = "General" ↔
       (¬(6 * pw_count m > 5 * hw_count m ∧ 6 * pw_count m > 5 * sw_count m) ∧
        ¬(sw_count m > hw_count m ∧ 5 * sw_count m > 6 * pw_count m) ∧
        hw_count m = 0)) := by
  by_cases hp : 6 * pw_count m > 5 * hw_count m ∧ 6 * pw_count m > 5 * sw_count m
  · rw [classify_eq_password m hg hp.1 hp.2]
    refine ⟨⟨fun _ => hp, fun _ => rfl⟩, ?_, ?_, ?_⟩ <;>
      exact ⟨fun h => absurd h (by decide), fun h => absurd hp h.1⟩
  · by_cases hs : sw_count m > hw_count m ∧ 5 * sw_count m > 6 * pw_count m
    · rw [classify_eq_software m hg hp hs.1 hs.2]
      refine ⟨⟨fun h => absurd h (by decide), fun h => absurd h hp⟩,
              ⟨fun _ => ⟨hp, hs⟩, fun _ => rfl⟩, ?_, ?_⟩ <;>
        exact ⟨fun h => absurd h (by decide), fun h => absurd hs h.2.1⟩
    · by_cases hh : 0 < hw_count m
      · rw [classify_eq_hardware m hg hp hs hh]
        exact ⟨⟨fun h => absurd h (by decide), fun h => absurd h hp⟩,
               ⟨fun h => absurd h (by decide), fun h => absurd h.2 hs⟩,
               ⟨fun _ => ⟨hp, hs, hh⟩, fun _ => rfl⟩,
               ⟨fun h => absurd h (by decide), fun h => absurd h.2.2 (by omega)⟩⟩
      · have hh0 : hw_count m = 0 := by omega
        rw [classify_eq_general m hg hp hs hh0]
        exact ⟨⟨fun h => absurd h (by decide), fun h => absurd h hp⟩,
               ⟨fun h => absurd h (by decide), fun h => absurd h.2 hs⟩,
               ⟨fun h => absurd h (by decide), fun h => absurd h.2.2 (by omega)⟩,
               ⟨fun _ => ⟨hp, hs, hh0⟩, fun _ => rfl⟩⟩

/-- Witness for C4: the characterization applied at a concrete input. -/
theorem classify_issue_characterization_witness :
    classify_issue (cps "printer install") = "Hardware" :=
  ((classify_issue_characterization (cps "printer install") (by decide)).2.2.1).mpr
    ⟨by decide, by decide, by decide⟩

/-- Counterexample for C4 as stated: on "printer install" the hardware and
software counts tie at 1, yet Hardware is returned — the winner does NOT
have a strictly greatest count. -/
theorem classify_issue_strict_winner_counterexample :
    classify_issue (cps "printer install") = "Hardware" ∧
    hw_count (cps "printer install") = 1 ∧
    sw_count (cps "printer install") = 1 ∧
    ¬(hw_count (cps "printer install") > sw_count (cps "printer install")) :=
  ⟨by decide, by decide, by decide, by decide⟩

/-- C5 (amended) — the minimum-length / greeting guard of `classify_issue`:
every input whose stripped length is below 10, or whose lower-cased text is
one of the greeting phrases, is classified `"General"` with no keyword
scoring.  `classify_issue` returns a bare category and reports no
confidence; the repository's only confidence-reporting classifier,
`get_issue_classification`, has no such guard (see the counterexample). -/
theorem classify_issue_guard_general (m : List Nat)
    (hg : classify_guard m = true) :
    classify_issue m = "General" := by
  unfold classify_issue
  rw [hg]
  simp

/-- Witness for C5: `classify("hi")` falls under the guard and returns General. -/
theorem classify_issue_guard_general_witness :
    classify_guard (cps "hi") = true ∧ classify_issue (cps "hi") = "General" :=
  ⟨by decide, classify_issue_guard_general (cps "hi") (by decide)⟩

lemma gi_confidence_eq (t : String) :
    (get_issue_classification t).confidence =
      ((max (gi_hw_count t) (max (gi_sw_count t) (max (gi_net_count t) (gi_sec_count t))) : Nat) : ℚ) / 5 :=
  rfl

/-- Counterexample for C5 as stated: "printer" is 7 < 10 characters, yet
the confidence-reporting classifier `get_issue_classification` scores its
keywords and returns Hardware with confidence 1/5 — not General with
confidence 0. -/
theorem guard_confidence_counterexample :
    (stripL (cps "printer")).length < 10 ∧
    (get_issue_classification "printer").category = "Hardware" ∧
    (get_issue_classification "printer").confidence = 1 / 5 ∧
    ¬((get_issue_classification "printer").confidence = 0) := by
  have hc : (get_issue_classification "printer").confidence = ((1 : Nat) : ℚ) / 5 := by
    rw [gi_confidence_eq]
    norm_num [show gi_hw_count "printer" = 1 from by decide,
              show gi_sw_count "printer" = 0 from by decide,
              show gi_net_count "printer" = 0 from by decide,
              show gi_sec_count "printer" = 0 from by decide]
  refine ⟨by decide, by decide, ?_, ?_⟩
  · rw [hc]; norm_num
  · rw [hc]; norm_num

lemma giCount_le_length (kws : List String) (x : List Nat) :
    giCount kws x ≤ kws.length :=
  List.length_filter_le _ _

/-- C6 (amended) — the confidence of `get_issue_classification` equals
`max(category counts) / 5`; it is nonnegative and bounded by `16/5` (16 is
the longest keyword list), but it is NOT clamped to `[0,1]`: with more than
five matching keywords of one category it exceeds 1 (see counterexample). -/
theorem gi_confidence_spec (t : String) :
    (get_issue_classification t).confidence =
      ((max (gi_hw_count t) (max (gi_sw_count t) (max (gi_net_count t) (gi_sec_count t))) : Nat) : ℚ) / 5 ∧
    0 ≤ (get_issue_classification t).confidence ∧
    (get_issue_classification t).confidence ≤ 16 / 5 := by
  refine ⟨gi_confidence_eq t, ?_, ?_⟩
  · rw [gi_confidence_eq]
    positivity
  · rw [gi_confidence_eq]
    have hb : max (gi_hw_count t) (max (gi_sw_count t) (max (gi_net_count t) (gi_sec_count t))) ≤ 16 := by
      have h1 := giCount_le_length gi_hardware_keywords (pyLower (cps t))
      have h2 := giCount_le_length gi_software_keywords (pyLower (cps t))
      have h3 := giCount_le_length gi_network_keywords (pyLower (cps t))
      have h4 := giCount_le_length gi_security_keywords (pyLower (cps t))
      have e1 : gi_hardware_keywords.length = 13 := by decide
      have e2 : gi_software_keywords.length = 16 := by decide
      have e3 : gi_network_keywords.length = 12 := by decide
      have e4 : gi_security_keywords.length = 11 := by decide
      simp only [gi_hw_count, gi_sw_count, gi_net_count, gi_sec_count]
      omega
    gcongr
    exact_mod_cast hb

/-- Counterexample for C6 as stated: six security keywords match, so the
confidence is 6/5 > 1 — the quotient is not clamped to [0,1]. -/
theorem gi_confidence_counterexample :
    (get_issue_classification "login security authentication credentials reset locked").confidence = 6 / 5 ∧
    ¬((get_issue_classification "login security authentication credentials reset locked").confidence ≤ 1) := by
  have hc : (get_issue_classification "login security authentication credentials reset locked").confidence
      = ((6 : Nat) : ℚ) / 5 := by
    rw [gi_confidence_eq]
    norm_num [show gi_hw_count "login security authentication credentials reset locked" = 0 from by decide,
              show gi_sw_count "login security authentication credentials reset locked" = 0 from by decide,
              show gi_net_count "login security authentication credentials reset locked" = 0 from by decide,
              show gi_sec_count "login security authentication credentials reset locked" = 6 from by decide]
  constructor
  · rw [hc]; norm_num
  · rw [hc]; norm_num

/-- C8 (amended) — `SessionMemory.clear` frame condition: clearing empties
the chat history and leaves the WHOLE of `session_data` unchanged —
`created_at`, `user_info`, `device_info`, `issue_data` and `metadata`, but
also `last_updated`, which (unlike every other mutator) `clear` does NOT
reset: the source method only calls `self.memory.clear()` and never touches
`session_data`. -/
theorem session_memory_clear_frame (m : SessionMemory) (now : String) :
    (m.clear now).history = [] ∧ (m.clear now).data = m.data :=
  ⟨rfl, rfl⟩

/-- A concrete `SessionMemory` state for the C8 counterexample. -/
def sm0 : SessionMemory :=
  { SessionMemory.new "sess-0" "2024-01-01T00:00:00" with
    history := [("user", "hello")] }

/-- Counterexample for C8 as stated: clearing at a later clock instant
leaves `last_updated` at its old value — it is not reset. -/
theorem session_memory_clear_counterexample :
    (sm0.clear "2025-06-01T12:00:00").history = [] ∧
    (sm0.clear "2025-06-01T12:00:00").data.last_updated = "2024-01-01T00:00:00" ∧
    (sm0.clear "2025-06-01T12:00:00").data.last_updated ≠ "2025-06-01T12:00:00" :=
  ⟨rfl, rfl, by decide⟩

lemma store_lookup_filter_self (st : SessionStore) (sid : String) :
    store_lookup (List.filter (fun p => !(p.1 == sid)) st) sid = none := by
  induction st with
  | nil => rfl
  | cons hd tl ih =>
    by_cases h : hd.1 = sid
    · simp [store_lookup, List.filter, h] at ih ⊢
      exact ih
    · simp only [List.filter]
      have hb : (!(hd.1 == sid)) = true := by simp [h]
      rw [hb]
      simp only [store_lookup, List.find?]
      have hb2 : (hd.1 == sid) = false := by simp [h]
      rw [hb2]
      simpa [store_lookup] using ih

lemma store_lookup_filter_other (st : SessionStore) (sid k : String) (h : k ≠ sid) :
    store_lookup (List.filter (fun p => !(p.1 == sid)) st) k = store_lookup st k := by
  induction st with
  | nil => rfl
  | cons hd tl ih =>
    by_cases hh : hd.1 = sid
    · have hb : (!(hd.1 == sid)) = false := by simp [hh]
      have hk : (hd.1 == k) = false := by
        simp only [beq_eq_false_iff_ne, ne_eq]
        intro he
        exact h (he.symm.trans hh)
      simp only [List.filter, hb]
      rw [ih]
      simp only [store_lookup, List.find?, hk]
    · have hb : (!(hd.1 == sid)) = true := by simp [hh]
      simp only [List.filter, hb]
      by_cases hk : hd.1 = k
      · simp [store_lookup, List.find?, hk]
      · have hkb : (hd.1 == k) = false := by simp [hk]
        simp only [store_lookup, List.find?, hkb]
        simpa [store_lookup] using ih

/-- C9 — `end_session` is total and precise: for every store and id it
returns normally (the membership guard makes the `del` safe); an absent id
leaves the store untouched, and a present id removes exactly that entry —
the id no longer resolves and every other id resolves as before. -/
theorem end_session_spec (st : SessionStore) (sid : String) :
    ∃ st', end_session st sid = .ok st' ∧
      (store_contains st sid = false → st' = st) ∧
      store_lookup st' sid = none ∧
      (∀ k, k ≠ sid → store_lookup st' k = store_lookup st k) := by
  by_cases hc : store_contains st sid = true
  · refine ⟨List.filter (fun p => !(p.1 == sid)) st, ?_, ?_, ?_, ?_⟩
    · simp [end_session, pyDictDel, hc]
    · intro h
      rw [hc] at h
      cases h
    · exact store_lookup_filter_self st sid
    · exact fun k hk => store_lookup_filter_other st sid k hk
  · have hcf : store_contains st sid = false := by
      revert hc
      cases store_contains st sid <;> simp
    refine ⟨st, ?_, fun _ => rfl, ?_, fun _ _ => rfl⟩
    · simp [end_session, hcf]
    · unfold store_contains at hcf
      revert hcf
      cases hl : store_lookup st sid <;> simp

/-- Witness for C9: ending a present id removes it; ending an absent id is
a no-op. -/
theorem end_session_spec_witness :
    (∃ st', end_session [("a", Session.new "a" env0)] "a" = .ok st' ∧
            store_lookup st' "a" = none) ∧
    (∃ st', end_session [("a", Session.new "a" env0)] "b" = .ok st' ∧
            st' = [("a", Session.new "a" env0)]) := by
  constructor
  · obtain ⟨st', h1, _, h3, _⟩ := end_session_spec [("a", Session.new "a" env0)] "a"
    exact ⟨st', h1, h3⟩
  · obtain ⟨st', h1, h2, _, _⟩ := end_session_spec [("a", Session.new "a" env0)] "b"
    exact ⟨st', h1, h2 (by decide)⟩

lemma pq_route_session (c : Collab) (env : Env) (mems : Mems) (s : Session) (it q : String) :
    ∃ a, (MEAgentOrchestrator.pq_route c env mems s it q).2.1 = { s with agent_id := a } := by
  unfold MEAgentOrchestrator.pq_route
  dsimp only
  repeat' split
  all_goals exact ⟨_, rfl⟩

lemma process_query_session (c : Collab) (env : Env) (mems : Mems) (s : Session) (q : String) :
    ∃ a, (MEAgentOrchestrator.process_query c env mems s q).2.1 =
      { s with issue_type := (if (!truthyS s.issue_type || s.issue_type == some "General")
                              then some (MEAgentOrchestrator.classify_issue_type c q)
                              else s.issue_type),
               agent_id := a } := by
  unfold MEAgentOrchestrator.process_query
  dsimp only
  by_cases hcls : (!truthyS s.issue_type || s.issue_type == some "General") = true
  · simp only [hcls, if_true]
    obtain ⟨a, ha⟩ := pq_route_session c env _
      { s with issue_type := some (MEAgentOrchestrator.classify_issue_type c q) }
      (MEAgentOrchestrator.classify_issue_type c q) q
    rw [ha]
    exact ⟨a, rfl⟩
  · have hf : (!truthyS s.issue_type || s.issue_type == some "General") = false := by
      revert hcls
      cases (!truthyS s.issue_type || s.issue_type == some "General") <;> simp
    simp only [hf, if_false, Bool.false_eq_true]
    obtain ⟨a, ha⟩ := pq_route_session c env _ s ((s.issue_type).getD "") q
    rw [ha]
    exact ⟨a, rfl⟩

lemma gig_session (c : Collab) (env : Env) (mems : Mems) (s : Session) :
    ∃ eid einfo dev, (MEAgentOrchestrator.get_initial_greeting c env mems s).2.1 =
      { s with employee_id := eid, employee_info := einfo, devices := dev } := by
  unfold MEAgentOrchestrator.get_initial_greeting MEAgentOrchestrator.greeting_reply
  dsimp only
  repeat' split
  all_goals exact ⟨_, _, _, rfl⟩

lemma merge_hints_frame (s : Session) (e p l : Option String) :
    (merge_hints s e p l).issue_type = s.issue_type ∧
    (merge_hints s e p l).greeted = s.greeted ∧
    (merge_hints s e p l).session_id = s.session_id ∧
    (merge_hints s e p l).messages = s.messages := by
  unfold merge_hints
  dsimp only
  repeat' split
  all_goals exact ⟨rfl, rfl, rfl, rfl⟩

lemma store_lookup_insert_self (st : SessionStore) (k : String) (v : Session) :
    store_lookup (store_insert st k v) k = some v := by
  simp [store_lookup, store_insert, List.find?]

lemma pm_greet_lookup (c : Collab) (env : Env) (store : SessionStore) (mems : Mems)
    (m : String) (s : Session) :
    ∃ s2, store_lookup (MEAgentOrchestrator.pm_greet_branch c env store mems m s).1 s.session_id = some s2 ∧
      s2.greeted = true ∧ s2.issue_type = s.issue_type := by
  unfold MEAgentOrchestrator.pm_greet_branch
  dsimp only
  obtain ⟨eid, einfo, dev, hg⟩ := gig_session c env mems s
  rcases hG : MEAgentOrchestrator.get_initial_greeting c env mems s with ⟨m2, s2, g⟩
  rw [hG] at hg
  dsimp at hg
  subst hg
  dsimp only
  exact ⟨_, store_lookup_insert_self _ _ _, rfl, rfl⟩

lemma pm_route_lookup (c : Collab) (env : Env) (store : SessionStore) (mems : Mems)
    (m : String) (s : Session) :
    ∃ s2, store_lookup (MEAgentOrchestrator.pm_route_branch c env store mems m s).1 s.session_id = some s2 ∧
      s2.greeted = s.greeted ∧
      s2.issue_type = (if (!truthyS s.issue_type || s.issue_type == some "General")
                       then some (MEAgentOrchestrator.classify_issue_type c m)
                       else s.issue_type) := by
  unfold MEAgentOrchestrator.pm_route_branch
  dsimp only
  obtain ⟨a, hpq⟩ := process_query_session c env mems { s with messages := s.messages ++ [("user", m)] } m
  rcases hE : MEAgentOrchestrator.process_query c env mems { s with messages := s.messages ++ [("user", m)] } m with ⟨m2, s2, E⟩
  rw [hE] at hpq
  dsimp at hpq
  subst hpq
  cases E with
  | ok r =>
    dsimp only
    exact ⟨_, store_lookup_insert_self _ _ _, rfl, rfl⟩
  | error e =>
    dsimp only
    exact ⟨_, store_lookup_insert_self _ _ _, rfl, rfl⟩

lemma ao_process_query_sticky (c : Collab) (q : String) (s : Session) (u : String)
    (hs : s.issue_type = some u) (hne : u ≠ "") :
    ∃ s', (AgentOrchestrator.process_query c q (some s)).1 = some s' ∧ s'.issue_type = some u := by
  unfold AgentOrchestrator.process_query
  dsimp only
  have ht : (!truthyS s.issue_type) = false := by
    rw [hs]
    simp [truthyS, hne]
  simp only [ht, Bool.false_eq_true, if_false]
  refine ⟨s, ?_, hs⟩
  dsimp only
  split <;> rfl

/-- C1 (amended) — sticky classification.  Once `issue_type` holds a
specific non-General category, neither `MEAgentOrchestrator.process_query`,
nor `AgentOrchestrator.process_query`, nor a whole
`MEAgentOrchestrator.process_message` turn changes it.  An unset or General
`issue_type` is reclassified on every `MEAgentOrchestrator.process_query`
turn; but in `AgentOrchestrator.process_query` EVERY truthy stored value —
the General category included — is reused without reclassification. -/
theorem sticky_classification (c : Collab) (env : Env) (mems : Mems) (s : Session) (q t : String) :
    ((s.issue_type = some t ∧ (t = "Hardware" ∨ t = "Software" ∨ t = "Password")) →
      ((MEAgentOrchestrator.process_query c env mems s q).2.1.issue_type = some t ∧
       (∃ s', (AgentOrchestrator.process_query c q (some s)).1 = some s' ∧ s'.issue_type = some t) ∧
       (∀ st mems2 sid e p l, store_lookup st sid = some s → s.session_id = sid →
         ∃ s2, store_lookup (MEAgentOrchestrator.process_message c env st mems2 q sid e p l).1 sid = some s2 ∧
               s2.issue_type = some t)))
    ∧ ((s.issue_type = none ∨ s.issue_type = some "General") →
      (MEAgentOrchestrator.process_query c env mems s q).2.1.issue_type =
        some (MEAgentOrchestrator.classify_issue_type c q))
    ∧ (∀ u, s.issue_type = some u → u ≠ "" →
      ∃ s', (AgentOrchestrator.process_query c q (some s)).1 = some s' ∧ s'.issue_type = some u) := by
  refine ⟨?_, ?_, ?_⟩
  · rintro ⟨hs, ht⟩
    have hne : t ≠ "" := by rcases ht with rfl | rfl | rfl <;> decide
    have hcond : (!truthyS s.issue_type || s.issue_type == some "General") = false := by
      rw [hs]
      rcases ht with rfl | rfl | rfl <;> decide
    refine ⟨?_, ao_process_query_sticky c q s t hs hne, ?_⟩
    · obtain ⟨a, ha⟩ := process_query_session c env mems s q
      rw [ha]
      dsimp only
      rw [hcond]
      simpa using hs
    · intro st mems2 sid e p l hlk hsid
      unfold MEAgentOrchestrator.process_message
      dsimp only
      rw [show get_session env st sid = (st, s) from by unfold get_session; rw [hlk]]
      dsimp only
      obtain ⟨hit, hgr, hsid2, hmsg⟩ := merge_hints_frame s e p l
      by_cases hb : ((!(merge_hints s e p l).greeted) = true ∧ message_has_greeting q = true)
      · rw [if_pos hb]
        obtain ⟨s2, hl, hg2, hi2⟩ := pm_greet_lookup c env st mems2 q (merge_hints s e p l)
        rw [hsid2, hsid] at hl
        exact ⟨s2, hl, by rw [hi2, hit, hs]⟩
      · rw [if_neg hb]
        obtain ⟨s2, hl, hg2, hi2⟩ := pm_route_lookup c env st mems2 q (merge_hints s e p l)
        rw [hsid2, hsid] at hl
        refine ⟨s2, hl, ?_⟩
        rw [hi2, hit, hcond]
        simpa using hs
  · intro hB
    obtain ⟨a, ha⟩ := process_query_session c env mems s q
    rw [ha]
    dsimp only
    have hcond : (!truthyS s.issue_type || s.issue_type == some "General") = true := by
      rcases hB with h0 | h0 <;> rw [h0] <;> decide
    rw [hcond]
    simp
  · exact fun u hu hne => ao_process_query_sticky c q s u hu hne

/-- A session whose `issue_type` has been set to General. -/
def sessionG : Session := { Session.new "s-gen" env0 with issue_type := some "General" }

/-- A session whose `issue_type` has been set to Hardware. -/
def sessionH : Session := { Session.new "s-hw" env0 with issue_type := some "Hardware" }

/-- Counterexample for C1 as stated: with `issue_type = "General"` stored,
an `AgentOrchestrator.process_query` turn whose message clearly classifies
as Hardware still leaves the session at General — in this orchestrator a
stored General is never reclassified. -/
theorem ao_general_sticky_counterexample :
    AgentOrchestrator.classify_issue_type failCollab "my printer is broken" = "Hardware" ∧
    (AgentOrchestrator.process_query failCollab "my printer is broken" (some sessionG)).1.map
        (fun s => s.issue_type) = some (some "General") :=
  ⟨by decide, by decide⟩

/-- Witness for C1: a session stuck at Hardware is not reclassified. -/
theorem sticky_classification_witness :
    (MEAgentOrchestrator.process_query failCollab env0 [] sessionH "help me").2.1.issue_type = some "Hardware" :=
  ((sticky_classification failCollab env0 [] sessionH "help me" "Hardware").1 ⟨rfl, Or.inl rfl⟩).1

/-- C7 — the greeting short-circuit fires at most once per session: after a
`process_message` turn the stored session's `greeted` flag equals
`old greeted OR message contains a greeting phrase` (so it flips from false
to true on the first greeting-bearing message and never reverts); once
`greeted` is true the call IS the routing branch (the greeting path is not
taken, even for another greeting-like message), and while `greeted` is
false a greeting-bearing message takes exactly the greeting branch. -/
theorem greeting_once (c : Collab) (env : Env) (st : SessionStore) (mems : Mems)
    (m sid : String) (e p l : Option String)
    (hsid : (get_session env st sid).2.session_id = sid) :
    (∃ s2, store_lookup (MEAgentOrchestrator.process_message c env st mems m sid e p l).1 sid = some s2 ∧
       s2.greeted = ((get_session env st sid).2.greeted || message_has_greeting m))
    ∧ ((get_session env st sid).2.greeted = true →
        MEAgentOrchestrator.process_message c env st mems m sid e p l =
          MEAgentOrchestrator.pm_route_branch c env (get_session env st sid).1 mems m
            (merge_hints (get_session env st sid).2 e p l))
    ∧ ((get_session env st sid).2.greeted = false → message_has_greeting m = true →
        MEAgentOrchestrator.process_message c env st mems m sid e p l =
          MEAgentOrchestrator.pm_greet_branch c env (get_session env st sid).1 mems m
            (merge_hints (get_session env st sid).2 e p l)) := by
  rcases hGS : get_session env st sid with ⟨st1, s0⟩
  rw [hGS] at hsid
  dsimp only at hsid
  obtain ⟨hit, hgr, hsid2, hmsg⟩ := merge_hints_frame s0 e p l
  refine ⟨?_, ?_, ?_⟩
  · unfold MEAgentOrchestrator.process_message
    rw [hGS]
    dsimp only
    by_cases hb : ((!(merge_hints s0 e p l).greeted) = true ∧ message_has_greeting m = true)
    · rw [if_pos hb]
      obtain ⟨s2, hl, hg2, hi2⟩ := pm_greet_lookup c env st1 mems m (merge_hints s0 e p l)
      rw [hsid2, hsid] at hl
      refine ⟨s2, hl, ?_⟩
      have hg0 : s0.greeted = false := by
        have h1 := hb.1
        rw [hgr] at h1
        revert h1
        cases s0.greeted <;> simp
      rw [hg2, hg0, hb.2]
      rfl
    · rw [if_neg hb]
      obtain ⟨s2, hl, hg2, hi2⟩ := pm_route_lookup c env st1 mems m (merge_hints s0 e p l)
      rw [hsid2, hsid] at hl
      refine ⟨s2, hl, ?_⟩
      rw [hg2, hgr]
      cases hg0 : s0.greeted with
      | true => simp
      | false =>
        have hmf : message_has_greeting m = false := by
          rcases hmm : message_has_greeting m with _ | _
          · rfl
          · exact absurd ⟨by rw [hgr, hg0]; rfl, hmm⟩ hb
        rw [hmf]
        rfl
  · intro hgt
    unfold MEAgentOrchestrator.process_message
    rw [hGS]
    dsimp only
    have hnb : ¬((!(merge_hints s0 e p l).greeted) = true ∧ message_has_greeting m = true) := by
      rintro ⟨h1, -⟩
      rw [hgr, hgt] at h1
      cases h1
    rw [if_neg hnb]
  · intro hgf hm
    unfold MEAgentOrchestrator.process_message
    rw [hGS]
    dsimp only
    rw [if_pos ⟨by rw [hgr, hgf]; rfl, hm⟩]

/-- Witness for C7: a first "hello" on a fresh session flips `greeted` to true. -/
theorem greeting_once_witness :
    ∃ s2, store_lookup (MEAgentOrchestrator.process_message failCollab env0 [] [] "hello" "w7" none none none).1 "w7" = some s2 ∧
      s2.greeted = ((get_session env0 [] "w7").2.greeted || message_has_greeting "hello") :=
  (greeting_once failCollab env0 [] [] "hello" "w7" none none none (by decide)).1

lemma string_ne_empty_of_length_pos (s : String) (h : 0 < s.length) : s ≠ "" := by
  intro he
  rw [he] at h
  exact absurd h (by decide)

lemma append_ne_empty_left (a b : String) (ha : a ≠ "") : a ++ b ≠ "" := by
  apply string_ne_empty_of_length_pos
  rw [String.length_append]
  have hpos : 0 < a.length := by
    by_contra hc
    have h0 : a.length = 0 := by omega
    apply ha
    cases a with
    | mk d =>
      cases d with
      | nil => rfl
      | cons x xs => simp [String.length] at h0
  omega

lemma time_greeting_ne (hour : Nat) : time_greeting hour ≠ "" := by
  unfold time_greeting
  repeat' split
  all_goals decide

lemma fallback_greeting_ok_ne (sess : Option Session) (g : String)
    (h : fallback_greeting sess = .ok g) : g ≠ "" := by
  unfold fallback_greeting at h
  repeat' split at h
  all_goals first
    | exact Except.noConfusion h
    | (injection h with h; subst h; decide)
    | (injection h with h; subst h;
       apply append_ne_empty_left
       apply append_ne_empty_left
       decide)

lemma generate_fallback_response_ok_ne (msg : String) (sess : Option Session)
    (it et : Option String) (r : String)
    (h : generate_fallback_response msg sess it et = .ok r) : r ≠ "" := by
  unfold generate_fallback_response at h
  cases hG : fallback_greeting sess with
  | error e => rw [hG] at h; exact Except.noConfusion h
  | ok g =>
    rw [hG] at h
    injection h with h
    subst h
    exact append_ne_empty_left g _ (fallback_greeting_ok_ne sess g hG)

lemma generate_initial_greeting_ok_ne (env : Env) (sess : Session) (g : String)
    (h : generate_initial_greeting env sess = .ok g) : g ≠ "" := by
  have htg := time_greeting_ne env.hour
  unfold generate_initial_greeting at h
  dsimp only at h
  repeat' split at h
  all_goals first
    | exact Except.noConfusion h
    | (injection h with h; subst h;
       repeat' apply append_ne_empty_left
       exact htg)

lemma chain_process_ne (c : Collab) (x : String)
    (hc : ∀ r, c.conversation_llm x = .ok r → r ≠ "") :
    MEConversationChain.process c x ≠ "" := by
  unfold MEConversationChain.process
  cases hX : c.conversation_llm x with
  | ok s => exact hc s hX
  | error e => dsimp only; decide

lemma greeting_reply_ne (c : Collab) (env : Env) (mems : Mems) (s : Session)
    (hc : ∀ r, c.conversation_llm "Hello" = .ok r → r ≠ "") :
    (MEAgentOrchestrator.greeting_reply c env mems s).2.2 ≠ "" := by
  unfold MEAgentOrchestrator.greeting_reply
  by_cases hT : truthyD s.employee_info = true
  · rw [if_pos hT]
    cases hE : s.employee_info with
    | some info =>
      dsimp only
      cases hH : headE (pySplitWs (pyGetD info "name" "")) with
      | error e => dsimp only; decide
      | ok nm => dsimp only; exact chain_process_ne c "Hello" hc
    | none => dsimp only; decide
  · rw [if_neg hT]
    cases hG : generate_initial_greeting env s with
    | ok g => dsimp only; exact generate_initial_greeting_ok_ne env s g hG
    | error e => dsimp only; decide

lemma get_initial_greeting_ne (c : Collab) (env : Env) (mems : Mems) (s : Session)
    (hc : ∀ r, c.conversation_llm "Hello" = .ok r → r ≠ "") :
    (MEAgentOrchestrator.get_initial_greeting c env mems s).2.2 ≠ "" := by
  unfold MEAgentOrchestrator.get_initial_greeting
  dsimp only
  repeat' split
  all_goals first
    | (dsimp only; decide)
    | exact greeting_reply_ne c env _ _ hc

lemma agent_process_ok_ne (c : Collab) (agent_type input : String) (sess : Option Session) (r : String)
    (ha : ∀ t x y, c.agent_executor_llm t x = .ok y → y ≠ "")
    (h : MeAIBaseAgent.process c agent_type input sess = .ok r) : r ≠ "" := by
  unfold MeAIBaseAgent.process at h
  cases hX : c.agent_executor_llm agent_type input with
  | ok s => rw [hX] at h; injection h with h; subst h; exact ha _ _ _ hX
  | error e =>
    rw [hX] at h
    exact generate_fallback_response_ok_ne _ _ _ _ _ h

lemma pq_route_reply_ok_ne (c : Collab) (env : Env) (mems : Mems) (s : Session) (it q r : String)
    (ha : ∀ t x y, c.agent_executor_llm t x = .ok y → y ≠ "")
    (h : (MEAgentOrchestrator.pq_route c env mems s it q).2.2 = .ok r) : r ≠ "" := by
  unfold MEAgentOrchestrator.pq_route at h
  dsimp only at h
  repeat' split at h
  all_goals dsimp only at h
  all_goals first
    | exact generate_fallback_response_ok_ne _ _ _ _ _ h
    | (injection h with h; subst h;
       rename MeAIBaseAgent.process _ _ _ _ = Except.ok _ => hM;
       exact agent_process_ok_ne _ _ _ _ _ ha hM)

lemma process_query_reply_ok_ne (c : Collab) (env : Env) (mems : Mems) (s : Session) (q r : String)
    (ha : ∀ t x y, c.agent_executor_llm t x = .ok y → y ≠ "")
    (h : (MEAgentOrchestrator.process_query c env mems s q).2.2 = .ok r) : r ≠ "" := by
  unfold MEAgentOrchestrator.process_query at h
  dsimp only at h
  exact pq_route_reply_ok_ne _ _ _ _ _ _ _ ha h

lemma pm_route_reply_ne (c : Collab) (env : Env) (store : SessionStore) (mems : Mems)
    (m : String) (s : Session)
    (ha : ∀ t x y, c.agent_executor_llm t x = .ok y → y ≠ "") :
    (MEAgentOrchestrator.pm_route_branch c env store mems m s).2.2 ≠ "" := by
  unfold MEAgentOrchestrator.pm_route_branch
  dsimp only
  rcases hE : MEAgentOrchestrator.process_query c env mems { s with messages := s.messages ++ [("user", m)] } m with ⟨m2, s2, E⟩
  cases E with
  | ok r =>
    dsimp only
    exact process_query_reply_ok_ne c env mems
      { s with messages := s.messages ++ [("user", m)] } m r ha (by rw [hE])
  | error e =>
    dsimp only
    decide

lemma pm_greet_reply_ne (c : Collab) (env : Env) (store : SessionStore) (mems : Mems)
    (m : String) (s : Session)
    (hc : ∀ r, c.conversation_llm "Hello" = .ok r → r ≠ "") :
    (MEAgentOrchestrator.pm_greet_branch c env store mems m s).2.2 ≠ "" := by
  unfold MEAgentOrchestrator.pm_greet_branch
  dsimp only
  have hne := get_initial_greeting_ne c env mems s hc
  rcases hG : MEAgentOrchestrator.get_initial_greeting c env mems s with ⟨m2, s2, g⟩
  rw [hG] at hne
  dsimp only
  exact hne

/-- C2 — total, non-empty string result at the public boundary: whatever
the collaborator oracles do — every LLM call, DB lookup and logging call
may raise — `process_message` and `get_initial_greeting` produce a string
(they are total Lean functions whose definitions contain the translated
`except` handlers, so no exception reaches the caller), and provided that a
SUCCESSFUL LLM reply is itself a non-empty string, the returned string is
never empty: in the worst case it is the fixed apology/greeting text. -/
theorem process_message_total (c : Collab) (env : Env) (st : SessionStore) (mems : Mems)
    (m sid : String) (e p l : Option String) (sess : Session)
    (hconv : ∀ x r, c.conversation_llm x = .ok r → r ≠ "")
    (hagent : ∀ t x r, c.agent_executor_llm t x = .ok r → r ≠ "") :
    (MEAgentOrchestrator.process_message c env st mems m sid e p l).2.2 ≠ "" ∧
    (MEAgentOrchestrator.get_initial_greeting c env mems sess).2.2 ≠ "" := by
  constructor
  · unfold MEAgentOrchestrator.process_message
    rcases hGS : get_session env st sid with ⟨st1, s0⟩
    dsimp only
    split
    · exact pm_greet_reply_ne c env st1 mems m _ (fun r h => hconv "Hello" r h)
    · exact pm_route_reply_ne c env st1 mems m _ hagent
  · exact get_initial_greeting_ne c env mems sess (fun r h => hconv "Hello" r h)

/-- Witness for C2: with every collaborator raising, `process_message`
still answers with a non-empty string. -/
theorem process_message_total_witness :
    (MEAgentOrchestrator.process_message failCollab env0 [] [] "help with my login" "w2" none none none).2.2 ≠ "" :=
  (process_message_total failCollab env0 [] [] "help with my login" "w2" none none none
     (Session.new "w2b" env0)
     (fun _ _ h => Except.noConfusion h) (fun _ _ _ h => Except.noConfusion h)).1
